import Mathlib

/-!
Verification of the crypto multi-timeframe analysis application
(`crypto_analysis_app/app.py`).

The development shallowly embeds the numeric core of the program:

* `calculate_indicators` — the pandas pipeline computing `ma20`, the
  Bollinger columns and the smoothed MA20 trend (`rolling`, `diffCol`,
  `listMean`, `sampleVar` embed `Series.rolling(w).mean()`,
  `Series.diff()` and `Series.rolling(w).std()` with their NaN
  semantics: a missing value is `none`, and a rolling window is
  aggregated only when it holds `w` non-missing values).
* `analyze_trend` — extraction of the latest row into a trend summary,
  including Python's `NaN > 0 = False` comparison semantics (`nanGtZero`).
* `get_market_sentiment` — the USDT-pair sentiment bucketing.
* the boundary functions `check_symbol_exists`, `get_klines_data`,
  `generate_trading_plan`, `generate_tweet`, `get_ai_analysis`, whose
  external collaborator call (HTTP fetch plus parsing, or the language
  model) is abstracted as a `PyResult` value: `ok` for a normal result of
  the `try`-block body, `exn` for an exception raised anywhere inside it.

Floating point numbers are modelled as elements of an arbitrary linear
ordered field `K` (instantiated at `ℚ` or `ℝ` in concrete statements);
`float('nan')` never arises from arithmetic here, only from missing
windowed data, which the embedding represents as `none`.
-/

/-- Outcome of a Python computation that may raise: `ok` is a normal
return value, `exn` an exception carrying its message `str(e)`. -/
inductive PyResult (A : Type) where
  | ok (a : A)
  | exn (msg : String)

/-- Pointwise lifting of a binary operation to NaN-able values, as pandas
arithmetic on `Series` propagates NaN: the result is missing as soon as
one operand is. -/
def omap2 {K : Type} (f : K → K → K) : Option K → Option K → Option K
  | some a, some b => some (f a b)
  | _, _ => none

/-- Value of a column at position `i` (`none` when missing or out of range). -/
def colEntry {K : Type} (c : List (Option K)) (i : ℕ) : Option K :=
  c.getD i none

/-- Value of a column at the last position, `.iloc[-1]` on a nonempty column. -/
def colLast {K : Type} (c : List (Option K)) : Option K :=
  colEntry c (c.length - 1)

/-- Arithmetic mean of a list, `np`-style `mean` of a full rolling window. -/
def listMean {K : Type} [LinearOrderedField K] (xs : List K) : K :=
  xs.sum / (xs.length : K)

/-- Sample variance with the pandas default `ddof=1`, i.e. the
`(n-1)`-denominator convention used by `Series.rolling(20).std()`. -/
def sampleVar {K : Type} [LinearOrderedField K] (xs : List K) : K :=
  (xs.map (fun x => (x - listMean xs) ^ 2)).sum / ((xs.length : K) - 1)

/-- `Series.rolling(window=w)` aggregation with aggregate `f`: position `i`
is aggregated over positions `i+1-w .. i`; it is missing when fewer than
`w` positions are available or when the window contains a missing value
(the default `min_periods = w` requires `w` non-missing observations). -/
def rolling {K : Type} (w : ℕ) (f : List K → K) (xs : List (Option K)) : List (Option K) :=
  (List.range xs.length).map (fun i =>
    if i + 1 < w then none
    else
      let win := (xs.take (i + 1)).drop (i + 1 - w)
      if win.all (fun o => o.isSome) then some (f (win.filterMap id)) else none)

/-- `Series.diff()`: first difference, missing at position `0` and wherever
one of the two operands is missing. -/
def diffCol {K : Type} [LinearOrderedField K] (xs : List (Option K)) : List (Option K) :=
  (List.range xs.length).map (fun i =>
    if i = 0 then none
    else omap2 (fun prev cur => cur - prev) (colEntry xs (i - 1)) (colEntry xs i))

/-- The kline DataFrame built by `get_klines_data` and augmented by
`calculate_indicators`: the six candle columns are always present, the
indicator columns are `none` until `calculate_indicators` attaches them.
Every indicator column is NaN-able per position. -/
structure DataFrame (K : Type) where
  timestamp : List K
  «open» : List K
  high : List K
  low : List K
  close : List K
  volume : List K
  ma20 : Option (List (Option K))
  boll_mid : Option (List (Option K))
  boll_std : Option (List (Option K))
  boll_up : Option (List (Option K))
  boll_down : Option (List (Option K))
  ma20_trend : Option (List (Option K))
deriving DecidableEq

/-- A raw kline DataFrame as returned by `get_klines_data`: only the candle
columns, no indicator columns yet. -/
def rawDF {K : Type} (ts op hi lo cl vo : List K) : DataFrame K :=
  ⟨ts, op, hi, lo, cl, vo, none, none, none, none, none, none⟩

/-- `calculate_indicators(df)`: attaches `ma20`, the Bollinger columns and
`ma20_trend` to the DataFrame, exactly as the pandas column assignments in
the source. The square root taken by `Series.rolling(20).std()` is passed
in as `sqrtK` (instantiated with `Real.sqrt` over `ℝ`); all other
arithmetic is field arithmetic. -/
def calculate_indicators {K : Type} [LinearOrderedField K]
    (sqrtK : K → K) (df : DataFrame K) : DataFrame K :=
  let closeCol : List (Option K) := df.close.map some
  let ma20 := rolling 20 listMean closeCol
  let boll_mid := rolling 20 listMean closeCol
  let boll_std := rolling 20 (fun xs => sqrtK (sampleVar xs)) closeCol
  let boll_up := List.zipWith (omap2 (fun m sd => m + 2 * sd)) boll_mid boll_std
  let boll_down := List.zipWith (omap2 (fun m sd => m - 2 * sd)) boll_mid boll_std
  let ma20_trend := rolling 5 listMean (diffCol ma20)
  { df with
      ma20 := some ma20
      boll_mid := some boll_mid
      boll_std := some boll_std
      boll_up := some boll_up
      boll_down := some boll_down
      ma20_trend := some ma20_trend }

/-- The call `calculate_indicators(df)` as seen from the call site: the
pandas column assignments `df[col] = ...` mutate the argument object in
place and the function then returns that same object. The first component
is the returned value, the second is the state of the caller's DataFrame
object after the call. -/
def calculate_indicators_call {K : Type} [LinearOrderedField K]
    (sqrtK : K → K) (df : DataFrame K) : DataFrame K × DataFrame K :=
  (calculate_indicators sqrtK df, calculate_indicators sqrtK df)

/-- Direction string computed by `analyze_trend`: `rising` is `"上升"`,
`falling` is `"下降"`. -/
inductive TrendDir where
  | rising
  | falling
deriving DecidableEq

/-- The dict returned by `analyze_trend`. The three band levels come from
NaN-able columns, hence are `Option`-valued. -/
structure TrendSummary (K : Type) where
  current_price : K
  ma20_trend : TrendDir
  strong_resistance : Option K
  middle_line : Option K
  strong_support : Option K
deriving DecidableEq

/-- Python comparison `v > 0` where `v` may be NaN: `NaN > 0` is `False`. -/
def nanGtZero {K : Type} [LinearOrderedField K] : Option K → Bool
  | some v => decide (0 < v)
  | none => false

/-- `analyze_trend(df)`: reads the latest row only. A missing column
(`KeyError`) or an empty column (`IndexError` from `.iloc[-1]`) is an
uncaught exception, modelled as `none`; otherwise a summary dict is
returned, with the `NaN > 0 = False` tie-break for the direction. -/
def analyze_trend {K : Type} [LinearOrderedField K] (df : DataFrame K) :
    Option (TrendSummary K) :=
  match df.close.getLast?, df.ma20_trend, df.boll_up, df.boll_mid, df.boll_down with
  | some current_price, some tcol, some ucol, some mcol, some dcol =>
    match tcol.getLast?, ucol.getLast?, mcol.getLast?, dcol.getLast? with
    | some t, some u, some m, some d =>
        some { current_price := current_price
               ma20_trend := if nanGtZero t then TrendDir.rising else TrendDir.falling
               strong_resistance := u
               middle_line := m
               strong_support := d }
    | _, _, _, _ => none
  | _, _, _, _, _ => none

/-- Sentiment labels of `get_market_sentiment`: `extremely_bullish` is
`"极端乐观"`, `bullish` `"乐观"`, `neutral` `"中性"`, `bearish` `"悲观"`,
`extremely_bearish` `"极端悲观"`. -/
inductive Sentiment where
  | extremely_bullish
  | bullish
  | neutral
  | bearish
  | extremely_bearish
deriving DecidableEq

/-- One entry of the `/ticker/24hr` response: the symbol (a character
string) and `float(item['priceChangePercent'])`. -/
structure Ticker where
  symbol : List Char
  priceChangePercent : ℚ
deriving DecidableEq

/-- Return value of `get_market_sentiment`, one constructor per `return`
statement: `noData` is the string `"无法获取USDT交易对数据"`, `fetchErr e`
the string `"获取市场情绪时发生错误: " ++ e`, and `report s p` the
formatted sentiment line carrying label `s` and the up-percentage `p`. -/
inductive SentimentResult where
  | noData
  | fetchErr (msg : String)
  | report (sentiment : Sentiment) (upPercentage : ℚ)
deriving DecidableEq

/-- `get_market_sentiment()`: the whole body runs under `try`; the fetch of
the 24h tickers (and its parsing) is abstracted as the `PyResult` input. -/
def get_market_sentiment (fetched : PyResult (List Ticker)) : SentimentResult :=
  match fetched with
  | .exn e => .fetchErr ("获取市场情绪时发生错误: " ++ e)
  | .ok data =>
    let usdt_pairs := data.filter (fun item => List.isSuffixOf "USDT".data item.symbol)
    let total_pairs := usdt_pairs.length
    if total_pairs = 0 then .noData
    else
      let up_pairs := usdt_pairs.filter (fun item => 0 < item.priceChangePercent)
      let up_percentage : ℚ := ((up_pairs.length : ℚ) / (total_pairs : ℚ)) * 100
      if 80 ≤ up_percentage then .report .extremely_bullish up_percentage
      else if 60 ≤ up_percentage then .report .bullish up_percentage
      else if 40 ≤ up_percentage then .report .neutral up_percentage
      else if 20 ≤ up_percentage then .report .bearish up_percentage
      else .report .extremely_bearish up_percentage

/-- `check_symbol_exists(symbol)`: membership of `symbol + "USDT"` in the
exchange's symbol list; any exception in the body is caught, an error
message is displayed and `False` is returned. -/
def check_symbol_exists (symbol : List Char) (fetched : PyResult (List (List Char))) : Bool :=
  match fetched with
  | .ok symbols => symbols.contains (symbol ++ "USDT".data)
  | .exn _ => false

/-- `get_klines_data(symbol, interval, limit)`: the fetched and parsed
kline DataFrame is returned; any exception in the body is caught, an error
message is displayed and `None` is returned. -/
def get_klines_data {K : Type} (symbol interval : String) (limit : ℕ)
    (fetched : PyResult (DataFrame K)) : Option (DataFrame K) :=
  match fetched with
  | .ok df => some df
  | .exn _ => none

/-- Prompt built by `generate_trading_plan`. -/
def tradingPlanPrompt (symbol : String) : String :=
  "请为交易对 " ++ symbol ++
    "/USDT 提供一个详细的顺应趋势的交易计划。包括但不限于入场点、止损点、目标价位和资金管理策略。"

/-- `generate_trading_plan(symbol)`: asks the language model for a plan;
an exception anywhere in the body yields the failure message. -/
def generate_trading_plan (symbol : String) (gen : String → PyResult String) : String :=
  match gen (tradingPlanPrompt symbol) with
  | .ok content => content
  | .exn e => "交易计划生成失败: " ++ e

/-- The `style_prompts` dict of `generate_tweet`, with the `.get(style, "")`
default for an unknown style. -/
def stylePrompts (style : String) : String :=
  if style = "女生" then "以女生的语气"
  else if style = "交易员" then "以交易员的专业语气"
  else if style = "分析师" then "以金融分析师的专业语气"
  else if style = "媒体" then "以媒体报道的客观语气"
  else ""

/-- Prompt built by `generate_tweet`. -/
def tweetPrompt (symbol analysis_summary style : String) : String :=
  stylePrompts style ++
    " 请根据以下分析总结，为交易对 " ++ symbol ++
    "/USDT 撰写一条简洁且专业的推文，适合发布在推特上。推文应包括当前价格、市场情绪、主要趋势以及操作建议。限制在280个字符以内。\n\n分析总结：\n" ++
    analysis_summary

/-- Python `str.strip()`: removes leading and trailing whitespace. -/
def pyStrip (s : List Char) : List Char :=
  ((s.dropWhile Char.isWhitespace).reverse.dropWhile Char.isWhitespace).reverse

/-- `generate_tweet(symbol, analysis_summary, style)`: the model's text is
stripped and, when longer than 280 characters, cut to its first 277
characters plus `"..."`; an exception anywhere in the body yields the
failure message. Texts are modelled as character lists (`len` and slicing
count characters, as in Python). -/
def generate_tweet (symbol analysis_summary style : String)
    (gen : String → PyResult (List Char)) : List Char :=
  match gen (tweetPrompt symbol analysis_summary style) with
  | .ok content =>
      let tweet := pyStrip content
      if 280 < tweet.length then tweet.take 277 ++ "...".data else tweet
  | .exn e => ("推文生成失败: " ++ e).data

/-- Prompt built by `get_ai_analysis` (markdown report template). -/
def aiAnalysisPrompt (symbol analysis_data trading_plan : String) : String :=
  "作为一位专业的加密货币分析师，请基于以下" ++ symbol ++
    "的多周期分析数据提供详细的市场报告：\n\n各周期趋势分析：\n" ++ analysis_data ++
    "\n\n详细交易计划：\n" ++ trading_plan ++
    "\n\n请提供以下分析（使用markdown格式）：\n## 市场综述\n## 趋势分析\n## 关键价位\n## 未来目标预测\n## 操作建议"

/-- `get_ai_analysis(symbol, analysis_data, trading_plan)`: asks the model
for the report; an exception anywhere in the body yields the failure
message. -/
def get_ai_analysis (symbol analysis_data trading_plan : String)
    (gen : String → PyResult String) : String :=
  match gen (aiAnalysisPrompt symbol analysis_data trading_plan) with
  | .ok content => content
  | .exn e => "AI 分析生成失败: " ++ e

/-- All six indicator fields of the latest row are present and
non-missing. -/
def latestRowDefined {K : Type} (df : DataFrame K) : Bool :=
  (colLast (df.ma20.getD [])).isSome &&
  (colLast (df.boll_mid.getD [])).isSome &&
  (colLast (df.boll_std.getD [])).isSome &&
  (colLast (df.boll_up.getD [])).isSome &&
  (colLast (df.boll_down.getD [])).isSome &&
  (colLast (df.ma20_trend.getD [])).isSome

/-- Modelled from the spec (§4.3): the advancing fraction, the count of
snapshots with a strictly positive 24h change divided by the total count. -/
def advancingFraction (tickers : List Ticker) : ℚ :=
  ((tickers.filter (fun item => 0 < item.priceChangePercent)).length : ℚ) /
    (tickers.length : ℚ)

/-- Modelled from the spec (§4.3): high-to-low, lower-bound-inclusive
bucketing of the advancing fraction. -/
def specBucket (frac : ℚ) : Sentiment :=
  if 0.80 ≤ frac then .extremely_bullish
  else if 0.60 ≤ frac then .bullish
  else if 0.40 ≤ frac then .neutral
  else if 0.20 ≤ frac then .bearish
  else .extremely_bearish

/-- Modelled from the spec (§4.1): arithmetic mean, for comparison with the
source's rolling mean. -/
noncomputable def specMean (xs : List ℝ) : ℝ := xs.sum / (xs.length : ℝ)

/-- Modelled from the spec (§4.1): sample standard deviation with the
`(n-1)`-denominator convention, for comparison with the source's
`rolling(20).std()`. -/
noncomputable def specSampleStd (xs : List ℝ) : ℝ :=
  Real.sqrt ((xs.map (fun x => (x - specMean xs) ^ 2)).sum / ((xs.length : ℝ) - 1))

/-- The trailing window of 20 closes ending at position `i`. -/
def trailing20 {K : Type} (closes : List K) (i : ℕ) : List K :=
  (closes.take (i + 1)).drop (i + 1 - 20)

/-! ### Column-level lemmas about the embedded pandas operations -/

theorem colEntry_mapRange {K : Type} (g : ℕ → Option K) (n i : ℕ) :
    colEntry ((List.range n).map g) i = if i < n then g i else none := by
  unfold colEntry
  rw [List.getD_eq_getElem?_getD]
  rcases lt_or_ge i n with h | h
  · rw [if_pos h, List.getElem?_map, List.getElem?_range h]
    rfl
  · rw [if_neg (not_lt.mpr h), List.getElem?_eq_none]
    · rfl
    · simpa using h

theorem length_rolling {K : Type} (w : ℕ) (f : List K → K) (xs : List (Option K)) :
    (rolling w f xs).length = xs.length := by
  simp [rolling]

theorem length_diffCol {K : Type} [LinearOrderedField K] (xs : List (Option K)) :
    (diffCol xs).length = xs.length := by
  simp [diffCol]

theorem isSome_ite_some_none {K : Type} (c : Prop) [Decidable c] (x : K) :
    (if c then some x else none).isSome = true ↔ c := by
  split_ifs with h <;> simp [h]

theorem isSome_omap2 {K : Type} (f : K → K → K) (a b : Option K) :
    (omap2 f a b).isSome = true ↔ a.isSome = true ∧ b.isSome = true := by
  cases a <;> cases b <;> simp [omap2]

theorem filterMap_id_map_some {K : Type} (l : List K) :
    (l.map some).filterMap id = l := by
  induction l with
  | nil => rfl
  | cons x xs ih => simp [ih]

theorem all_isSome_map_some {K : Type} (l : List K) :
    (l.map some).all (fun o => o.isSome) = true := by
  rw [List.all_eq_true]
  intro o ho
  rcases List.mem_map.mp ho with ⟨x, _, rfl⟩
  rfl

theorem colEntry_rolling {K : Type} (w : ℕ) (f : List K → K) (xs : List (Option K)) (i : ℕ) :
    colEntry (rolling w f xs) i =
      if i < xs.length then
        (if i + 1 < w then none
         else if ((xs.take (i + 1)).drop (i + 1 - w)).all (fun o => o.isSome)
           then some (f (((xs.take (i + 1)).drop (i + 1 - w)).filterMap id))
           else none)
      else none := by
  rw [rolling, colEntry_mapRange]

theorem colEntry_rolling_map_some {K : Type} (w : ℕ) (f : List K → K)
    (closes : List K) (i : ℕ) :
    colEntry (rolling w f (closes.map some)) i =
      if w ≤ i + 1 ∧ i < closes.length
        then some (f ((closes.take (i + 1)).drop (i + 1 - w)))
        else none := by
  rw [colEntry_rolling, ← List.map_take, ← List.map_drop,
    all_isSome_map_some, filterMap_id_map_some]
  simp only [List.length_map, if_true]
  rcases lt_or_ge i closes.length with h | h
  · rcases lt_or_ge (i + 1) w with h2 | h2
    · rw [if_pos h, if_pos h2, if_neg (by omega)]
    · rw [if_pos h, if_neg (by omega), if_pos (by omega)]
  · rw [if_neg (by omega), if_neg (by omega)]

theorem colEntry_diffCol {K : Type} [LinearOrderedField K] (xs : List (Option K)) (i : ℕ) :
    colEntry (diffCol xs) i =
      if i < xs.length ∧ i ≠ 0
        then omap2 (fun prev cur => cur - prev) (colEntry xs (i - 1)) (colEntry xs i)
        else none := by
  rw [diffCol, colEntry_mapRange]
  rcases lt_or_ge i xs.length with h | h
  · rcases Nat.eq_zero_or_pos i with h2 | h2
    · rw [if_pos h, if_pos h2, if_neg (by omega)]
    · rw [if_pos h, if_neg (by omega), if_pos (by constructor <;> omega)]
  · rw [if_neg (by omega), if_neg (by omega)]

theorem colEntry_zipWith_omap2 {K : Type} (f : K → K → K) (a b : List (Option K)) (i : ℕ) :
    colEntry (List.zipWith (omap2 f) a b) i = omap2 f (colEntry a i) (colEntry b i) := by
  induction a generalizing b i with
  | nil => cases b <;> cases i <;> simp [colEntry, omap2]
  | cons x xs ih =>
    cases b with
    | nil => cases x <;> cases i <;> simp [colEntry, omap2]
    | cons y ys =>
      cases i with
      | zero => simp [colEntry]
      | succ j => simpa [colEntry] using ih ys j

theorem window_all_isSome_iff {K : Type} (xs : List (Option K)) (a b : ℕ) :
    ((xs.take a).drop b).all (fun o => o.isSome) = true ↔
      ∀ j, b ≤ j → j < a → j < xs.length → (colEntry xs j).isSome = true := by
  rw [List.all_eq_true]
  have hlen : ((xs.take a).drop b).length = min a xs.length - b := by simp
  constructor
  · intro H j hb ha hl
    have hj : j - b < ((xs.take a).drop b).length := by omega
    have hval : ((xs.take a).drop b)[j - b] = xs[j] := by
      rw [List.getElem_drop]
      have : b + (j - b) = j := by omega
      simp only [this]
      exact List.getElem_take ..
    have hmem : ((xs.take a).drop b)[j - b] ∈ (xs.take a).drop b := List.getElem_mem hj
    have := H _ hmem
    rw [hval] at this
    have hce : colEntry xs j = xs[j] := by
      unfold colEntry
      rw [List.getD_eq_getElem?_getD, List.getElem?_eq_getElem hl]
      rfl
    rw [hce]
    exact this
  · intro H o ho
    rcases List.mem_iff_getElem.mp ho with ⟨k, hk, rfl⟩
    have hk2 : k < min a xs.length - b := by rw [hlen] at hk; exact hk
    have hbk : b + k < xs.length := by omega
    have hval : ((xs.take a).drop b)[k] = xs[b + k] := by
      rw [List.getElem_drop]
      exact List.getElem_take ..
    rw [hval]
    have := H (b + k) (by omega) (by omega) hbk
    have hce : colEntry xs (b + k) = xs[b + k] := by
      unfold colEntry
      rw [List.getD_eq_getElem?_getD, List.getElem?_eq_getElem hbk]
      rfl
    rw [hce] at this
    exact this

theorem isSome_colEntry_rolling_map_some {K : Type} (w : ℕ) (f : List K → K)
    (closes : List K) (i : ℕ) :
    (colEntry (rolling w f (closes.map some)) i).isSome = true ↔
      (w ≤ i + 1 ∧ i < closes.length) := by
  rw [colEntry_rolling_map_some]
  exact isSome_ite_some_none _ _

theorem isSome_colEntry_diff_ma20 {K : Type} [LinearOrderedField K]
    (f : List K → K) (closes : List K) (j : ℕ) :
    (colEntry (diffCol (rolling 20 f (closes.map some))) j).isSome = true ↔
      (20 ≤ j ∧ j < closes.length) := by
  rw [colEntry_diffCol, length_rolling, List.length_map]
  split_ifs with h
  · rw [isSome_omap2, isSome_colEntry_rolling_map_some, isSome_colEntry_rolling_map_some]
    constructor
    · rintro ⟨⟨h1, _⟩, _⟩
      omega
    · rintro ⟨h1, h2⟩
      exact ⟨⟨by omega, by omega⟩, by omega, by omega⟩
  · simp only [Option.isSome_none, Bool.false_eq_true, false_iff]
    omega

theorem isSome_colEntry_trend {K : Type} [LinearOrderedField K] (closes : List K) (i : ℕ) :
    (colEntry (rolling 5 listMean (diffCol (rolling 20 listMean (closes.map some)))) i).isSome
        = true ↔ (24 ≤ i ∧ i < closes.length) := by
  have hdl : (diffCol (rolling 20 listMean (closes.map some))).length = closes.length := by
    rw [length_diffCol, length_rolling, List.length_map]
  rw [colEntry_rolling, hdl]
  split_ifs with h1 h2 h3
  · simp only [Option.isSome_none, Bool.false_eq_true, false_iff]
    omega
  · simp only [Option.isSome_some, true_iff]
    refine ⟨?_, h1⟩
    have hwin := (window_all_isSome_iff _ _ _).mp h3 (i - 4) (by omega) (by omega) (by omega)
    have := (isSome_colEntry_diff_ma20 listMean closes (i - 4)).mp hwin
    omega
  · simp only [Option.isSome_none, Bool.false_eq_true, false_iff]
    rintro ⟨h24, _⟩
    apply h3
    rw [window_all_isSome_iff]
    intro j hj1 hj2 hj3
    rw [hdl] at hj3
    exact (isSome_colEntry_diff_ma20 listMean closes j).mpr ⟨by omega, hj3⟩
  · simp only [Option.isSome_none, Bool.false_eq_true, false_iff]
    omega

/-! ### C1 -/

/-- C1 (amended): for the indicator pipeline `calculate_indicators`, the
smoothed trend column `ma20_trend` (the claim's trend_slope) is defined
exactly from position 24 on (0-based), i.e. it is undefined at the first
24 positions; consequently the latest row has all six indicator fields
(ma20, boll_mid, boll_std, boll_up, boll_down, ma20_trend) defined exactly
when the series has at least 25 candles — not 24 as claimed. -/
theorem calculate_indicators_warmup {K : Type} [LinearOrderedField K]
    (sqrtK : K → K) (df : DataFrame K) :
    (∀ i, (colEntry (((calculate_indicators sqrtK df).ma20_trend).getD []) i).isSome = true ↔
        (24 ≤ i ∧ i < df.close.length)) ∧
    (25 ≤ df.close.length → latestRowDefined (calculate_indicators sqrtK df) = true) := by
  have htr : ((calculate_indicators sqrtK df).ma20_trend).getD []
      = rolling 5 listMean (diffCol (rolling 20 listMean (df.close.map some))) := rfl
  constructor
  · intro i
    rw [htr]
    exact isSome_colEntry_trend df.close i
  · intro hlen
    have hma : ((calculate_indicators sqrtK df).ma20).getD []
        = rolling 20 listMean (df.close.map some) := rfl
    have hmid : ((calculate_indicators sqrtK df).boll_mid).getD []
        = rolling 20 listMean (df.close.map some) := rfl
    have hstd : ((calculate_indicators sqrtK df).boll_std).getD []
        = rolling 20 (fun xs => sqrtK (sampleVar xs)) (df.close.map some) := rfl
    have hup : ((calculate_indicators sqrtK df).boll_up).getD []
        = List.zipWith (omap2 (fun m sd => m + 2 * sd))
            (rolling 20 listMean (df.close.map some))
            (rolling 20 (fun xs => sqrtK (sampleVar xs)) (df.close.map some)) := rfl
    have hdn : ((calculate_indicators sqrtK df).boll_down).getD []
        = List.zipWith (omap2 (fun m sd => m - 2 * sd))
            (rolling 20 listMean (df.close.map some))
            (rolling 20 (fun xs => sqrtK (sampleVar xs)) (df.close.map some)) := rfl
    have hLma : ((calculate_indicators sqrtK df).ma20.getD []).length = df.close.length := by
      rw [hma, length_rolling, List.length_map]
    have hLmid : ((calculate_indicators sqrtK df).boll_mid.getD []).length = df.close.length := by
      rw [hmid, length_rolling, List.length_map]
    have hLstd : ((calculate_indicators sqrtK df).boll_std.getD []).length = df.close.length := by
      rw [hstd, length_rolling, List.length_map]
    have hLup : ((calculate_indicators sqrtK df).boll_up.getD []).length = df.close.length := by
      rw [hup, List.length_zipWith, length_rolling, length_rolling, List.length_map]
      omega
    have hLdn : ((calculate_indicators sqrtK df).boll_down.getD []).length = df.close.length := by
      rw [hdn, List.length_zipWith, length_rolling, length_rolling, List.length_map]
      omega
    have hLtr : ((calculate_indicators sqrtK df).ma20_trend.getD []).length = df.close.length := by
      rw [htr, length_rolling, length_diffCol, length_rolling, List.length_map]
    unfold latestRowDefined colLast
    rw [hLma, hLmid, hLstd, hLup, hLdn, hLtr]
    have e1 : (colEntry ((calculate_indicators sqrtK df).ma20.getD [])
        (df.close.length - 1)).isSome = true := by
      rw [hma, isSome_colEntry_rolling_map_some]
      omega
    have e2 : (colEntry ((calculate_indicators sqrtK df).boll_mid.getD [])
        (df.close.length - 1)).isSome = true := by
      rw [hmid, isSome_colEntry_rolling_map_some]
      omega
    have e3 : (colEntry ((calculate_indicators sqrtK df).boll_std.getD [])
        (df.close.length - 1)).isSome = true := by
      rw [hstd, isSome_colEntry_rolling_map_some]
      omega
    have e4 : (colEntry ((calculate_indicators sqrtK df).boll_up.getD [])
        (df.close.length - 1)).isSome = true := by
      rw [hup, colEntry_zipWith_omap2, isSome_omap2,
        isSome_colEntry_rolling_map_some, isSome_colEntry_rolling_map_some]
      omega
    have e5 : (colEntry ((calculate_indicators sqrtK df).boll_down.getD [])
        (df.close.length - 1)).isSome = true := by
      rw [hdn, colEntry_zipWith_omap2, isSome_omap2,
        isSome_colEntry_rolling_map_some, isSome_colEntry_rolling_map_some]
      omega
    have e6 : (colEntry ((calculate_indicators sqrtK df).ma20_trend.getD [])
        (df.close.length - 1)).isSome = true := by
      rw [htr, isSome_colEntry_trend]
      omega
    rw [e1, e2, e3, e4, e5, e6]
    rfl

/-- C1 witness: a concrete series of 25 constant candles has its whole
latest indicator row defined. -/
theorem calculate_indicators_warmup_witness :
    25 ≤ (rawDF ([] : List ℚ) [] [] [] (List.replicate 25 (1 : ℚ)) []).close.length ∧
    latestRowDefined (calculate_indicators (fun x => x)
      (rawDF ([] : List ℚ) [] [] [] (List.replicate 25 (1 : ℚ)) [])) = true :=
  ⟨by decide,
   (calculate_indicators_warmup (fun x => x)
      (rawDF ([] : List ℚ) [] [] [] (List.replicate 25 (1 : ℚ)) [])).2 (by decide)⟩

/-- C1 counterexample: a series of exactly 24 candles — the claim's stated
minimum — still has an undefined `ma20_trend` (trend_slope) in its latest
row, so the latest row is not fully defined. -/
theorem calculate_indicators_warmup_counterexample :
    24 ≤ (rawDF ([] : List ℚ) [] [] [] (List.replicate 24 (1 : ℚ)) []).close.length ∧
    latestRowDefined (calculate_indicators (fun x => x)
      (rawDF ([] : List ℚ) [] [] [] (List.replicate 24 (1 : ℚ)) [])) = false := by
  constructor
  · decide
  · decide

/-! ### Lemmas about analyze_trend -/

theorem exists_getLast?_of_ne_nil {A : Type} (l : List A) (h : l ≠ []) :
    ∃ x, l.getLast? = some x :=
  Option.isSome_iff_exists.mp (List.getLast?_isSome.mpr h)

theorem analyze_trend_eq {K : Type} [LinearOrderedField K] (df : DataFrame K)
    (cp : K) (tcol ucol mcol dcol : List (Option K)) (t u m d : Option K)
    (h1 : df.close.getLast? = some cp)
    (h2 : df.ma20_trend = some tcol) (h3 : df.boll_up = some ucol)
    (h4 : df.boll_mid = some mcol) (h5 : df.boll_down = some dcol)
    (h6 : tcol.getLast? = some t) (h7 : ucol.getLast? = some u)
    (h8 : mcol.getLast? = some m) (h9 : dcol.getLast? = some d) :
    analyze_trend df =
      some ⟨cp, if nanGtZero t then TrendDir.rising else TrendDir.falling, u, m, d⟩ := by
  unfold analyze_trend
  rw [h1, h2, h3, h4, h5]
  dsimp only
  rw [h6, h7, h8, h9]

/-! ### C2 -/

/-- C2 (amended): when the latest row's trend_slope (`ma20_trend`) is
undefined, `analyze_trend` does not fail with any error: it returns a
summary whose trend direction is falling (the undefined value compares as
not greater than zero), the undefined Bollinger fields being copied over
as they are. -/
theorem analyze_trend_on_undefined_slope {K : Type} [LinearOrderedField K]
    (sqrtK : K → K) (df : DataFrame K) (hne : df.close ≠ [])
    (hnan : ((calculate_indicators sqrtK df).ma20_trend.getD []).getLast? = some none) :
    ∃ summ : TrendSummary K,
      analyze_trend (calculate_indicators sqrtK df) = some summ ∧
      summ.ma20_trend = TrendDir.falling := by
  obtain ⟨cp, hcp⟩ := exists_getLast?_of_ne_nil df.close hne
  have hlen0 : 0 < df.close.length := List.length_pos.mpr hne
  have hnan' : (rolling 5 listMean
      (diffCol (rolling 20 listMean (df.close.map some)))).getLast? = some none := hnan
  obtain ⟨u, hu⟩ := exists_getLast?_of_ne_nil
    (List.zipWith (omap2 (fun m sd => m + 2 * sd))
      (rolling 20 listMean (df.close.map some))
      (rolling 20 (fun xs => sqrtK (sampleVar xs)) (df.close.map some)))
    (List.length_pos.mp (by
      rw [List.length_zipWith, length_rolling, length_rolling, List.length_map]
      omega))
  obtain ⟨m, hm⟩ := exists_getLast?_of_ne_nil
    (rolling 20 listMean (df.close.map some))
    (List.length_pos.mp (by rw [length_rolling, List.length_map]; omega))
  obtain ⟨d, hd⟩ := exists_getLast?_of_ne_nil
    (List.zipWith (omap2 (fun m sd => m - 2 * sd))
      (rolling 20 listMean (df.close.map some))
      (rolling 20 (fun xs => sqrtK (sampleVar xs)) (df.close.map some)))
    (List.length_pos.mp (by
      rw [List.length_zipWith, length_rolling, length_rolling, List.length_map]
      omega))
  refine ⟨⟨cp, TrendDir.falling, u, m, d⟩, ?_, rfl⟩
  have h := analyze_trend_eq (calculate_indicators sqrtK df) cp _ _ _ _ none u m d
    (show (calculate_indicators sqrtK df).close.getLast? = some cp from hcp)
    rfl rfl rfl rfl hnan' hu hm hd
  simpa [nanGtZero] using h

/-- C2 witness: on a series of 3 candles (shorter than any warm-up) the
amended behavior is exhibited. -/
theorem analyze_trend_on_undefined_slope_witness :
    ∃ summ : TrendSummary ℚ,
      analyze_trend (calculate_indicators (fun x => x)
        (rawDF ([] : List ℚ) [] [] [] [1, 2, 3] [])) = some summ ∧
      summ.ma20_trend = TrendDir.falling :=
  analyze_trend_on_undefined_slope (fun x => x)
    (rawDF ([] : List ℚ) [] [] [] [1, 2, 3] []) (by decide) (by decide)

/-- C2 counterexample: on a 3-candle series the latest trend_slope is
undefined, yet `analyze_trend` returns a summary (with direction falling
and undefined band levels) instead of failing with `UndefinedIndicator`. -/
theorem analyze_trend_no_failure_counterexample :
    (((calculate_indicators (fun x => x)
        (rawDF ([] : List ℚ) [] [] [] [1, 2, 3] [])).ma20_trend.getD []).getLast?
      = some none) ∧
    analyze_trend (calculate_indicators (fun x => x)
        (rawDF ([] : List ℚ) [] [] [] [1, 2, 3] []))
      = some ⟨3, TrendDir.falling, none, none, none⟩ := by
  constructor
  · decide
  · decide

/-! ### C6 -/

/-- C6 (confirmed): whenever the latest row lookup of `analyze_trend`
succeeds and the latest trend_slope (`ma20_trend`) is a defined value `v`,
the returned direction is rising exactly when `v > 0` and falling exactly
when `v ≤ 0`; in particular `v = 0` is classified as falling. -/
theorem analyze_trend_direction {K : Type} [LinearOrderedField K] (df : DataFrame K)
    (cp v : K) (tcol ucol mcol dcol : List (Option K)) (u m d : Option K)
    (h1 : df.close.getLast? = some cp)
    (h2 : df.ma20_trend = some tcol) (h3 : df.boll_up = some ucol)
    (h4 : df.boll_mid = some mcol) (h5 : df.boll_down = some dcol)
    (h6 : tcol.getLast? = some (some v)) (h7 : ucol.getLast? = some u)
    (h8 : mcol.getLast? = some m) (h9 : dcol.getLast? = some d) :
    ∃ summ : TrendSummary K,
      analyze_trend df = some summ ∧
      (summ.ma20_trend = TrendDir.rising ↔ 0 < v) ∧
      (summ.ma20_trend = TrendDir.falling ↔ v ≤ 0) := by
  refine ⟨⟨cp, if nanGtZero (some v) then TrendDir.rising else TrendDir.falling, u, m, d⟩,
    analyze_trend_eq df cp tcol ucol mcol dcol (some v) u m d
      h1 h2 h3 h4 h5 h6 h7 h8 h9, ?_, ?_⟩
  · by_cases h0 : 0 < v
    · simp [nanGtZero, h0]
    · simp [nanGtZero, h0]
  · by_cases h0 : 0 < v
    · simp [nanGtZero, h0, not_le.mpr h0]
    · simp [nanGtZero, h0, not_lt.mp h0]

/-- C6 witness: a latest row whose trend_slope is exactly `0` is classified
as falling (the boundary policy of the claim). -/
theorem analyze_trend_direction_witness :
    ∃ summ : TrendSummary ℚ,
      analyze_trend (DataFrame.mk [] [] [] [] [5] [] (some [some 1]) (some [some 9])
        (some [some 1]) (some [some 11]) (some [some 7]) (some [some 0])) = some summ ∧
      (summ.ma20_trend = TrendDir.rising ↔ (0 : ℚ) < 0) ∧
      (summ.ma20_trend = TrendDir.falling ↔ (0 : ℚ) ≤ 0) :=
  analyze_trend_direction
    (DataFrame.mk [] [] [] [] [5] [] (some [some 1]) (some [some 9])
      (some [some 1]) (some [some 11]) (some [some 7]) (some [some 0]))
    5 0 [some 0] [some 11] [some 9] [some 7] (some 11) (some 9) (some 7)
    rfl rfl rfl rfl rfl rfl rfl rfl rfl

/-! ### C7 -/

/-- C7 (amended): `calculate_indicators` is not free of side effects: the
indicator columns are attached to the caller's DataFrame object itself (in
place), and the returned value is that same object. Only the candle
columns are left unchanged. -/
theorem calculate_indicators_mutates {K : Type} [LinearOrderedField K]
    (sqrtK : K → K) (df : DataFrame K) :
    (calculate_indicators_call sqrtK df).2 = (calculate_indicators_call sqrtK df).1 ∧
    (calculate_indicators_call sqrtK df).1.timestamp = df.timestamp ∧
    (calculate_indicators_call sqrtK df).1.«open» = df.«open» ∧
    (calculate_indicators_call sqrtK df).1.high = df.high ∧
    (calculate_indicators_call sqrtK df).1.low = df.low ∧
    (calculate_indicators_call sqrtK df).1.close = df.close ∧
    (calculate_indicators_call sqrtK df).1.volume = df.volume :=
  ⟨rfl, rfl, rfl, rfl, rfl, rfl, rfl⟩

/-- C7 counterexample: after the call, the caller's DataFrame object is no
longer equal to the object passed in — the indicator columns were attached
to it in place, refuting the no-side-effects claim. -/
theorem calculate_indicators_mutates_counterexample :
    (calculate_indicators_call (fun x => x) (rawDF ([] : List ℚ) [] [] [] [1] [])).2
      ≠ rawDF ([] : List ℚ) [] [] [] [1] [] := by
  decide

/-! ### C8 -/

/-- C8 (confirmed): `calculate_indicators` is idempotent — a second
application recomputes every indicator column from the unchanged close
column, yielding an identical DataFrame. -/
theorem calculate_indicators_idempotent {K : Type} [LinearOrderedField K]
    (sqrtK : K → K) (df : DataFrame K) :
    calculate_indicators sqrtK (calculate_indicators sqrtK df)
      = calculate_indicators sqrtK df := rfl

/-! ### C5 -/

/-- C5 (confirmed): wherever defined, `boll_mid` equals `ma20` (same
rolling mean), `boll_std` is the sample standard deviation (with the
`(n-1)` denominator) of the trailing 20 closes, and the bands are
`mid ± 2 · std` (NaN-propagating pointwise arithmetic). -/
theorem bollinger_bands_spec (df : DataFrame ℝ) (i : ℕ) :
    (calculate_indicators Real.sqrt df).boll_mid = (calculate_indicators Real.sqrt df).ma20 ∧
    colEntry ((calculate_indicators Real.sqrt df).boll_std.getD []) i
      = (if 20 ≤ i + 1 ∧ i < df.close.length
          then some (specSampleStd (trailing20 df.close i)) else none) ∧
    colEntry ((calculate_indicators Real.sqrt df).boll_up.getD []) i
      = omap2 (fun m sd => m + 2 * sd)
          (colEntry ((calculate_indicators Real.sqrt df).boll_mid.getD []) i)
          (colEntry ((calculate_indicators Real.sqrt df).boll_std.getD []) i) ∧
    colEntry ((calculate_indicators Real.sqrt df).boll_down.getD []) i
      = omap2 (fun m sd => m - 2 * sd)
          (colEntry ((calculate_indicators Real.sqrt df).boll_mid.getD []) i)
          (colEntry ((calculate_indicators Real.sqrt df).boll_std.getD []) i) := by
  refine ⟨rfl, ?_, ?_, ?_⟩
  · have h : ((calculate_indicators Real.sqrt df).boll_std.getD [])
        = rolling 20 (fun xs => Real.sqrt (sampleVar xs)) (df.close.map some) := rfl
    rw [h, colEntry_rolling_map_some]
    rfl
  · exact colEntry_zipWith_omap2 ..
  · exact colEntry_zipWith_omap2 ..

/-! ### C3 and C4 -/

/-- C3 (confirmed): on a fetch that succeeds with a nonempty USDT-quoted
collection, `get_market_sentiment` reports the bucket of the advancing
fraction (count of strictly positive 24h changes over total), with
lower-bound-inclusive thresholds 0.80 / 0.60 / 0.40 / 0.20 checked
high-to-low, alongside the percentage `fraction × 100`. -/
theorem get_market_sentiment_bucketing (data : List Ticker)
    (h : data.filter (fun item => List.isSuffixOf "USDT".data item.symbol) ≠ []) :
    get_market_sentiment (.ok data)
      = .report
          (specBucket (advancingFraction
            (data.filter (fun item => List.isSuffixOf "USDT".data item.symbol))))
          (advancingFraction
            (data.filter (fun item => List.isSuffixOf "USDT".data item.symbol)) * 100) := by
  unfold get_market_sentiment
  dsimp only
  set u := data.filter (fun item => List.isSuffixOf "USDT".data item.symbol) with hu
  have hne : u.length ≠ 0 := fun h0 => h (List.length_eq_zero.mp h0)
  rw [if_neg hne]
  unfold advancingFraction specBucket
  set frac : ℚ :=
    ((u.filter (fun item => 0 < item.priceChangePercent)).length : ℚ) / (u.length : ℚ)
    with hfrac
  have h100 : (0 : ℚ) < 100 := by norm_num
  have e80 : (80 : ℚ) ≤ frac * 100 ↔ (0.80 : ℚ) ≤ frac := by
    rw [show (0.80 : ℚ) = 80 / 100 by norm_num]
    exact (div_le_iff₀ h100).symm
  have e60 : (60 : ℚ) ≤ frac * 100 ↔ (0.60 : ℚ) ≤ frac := by
    rw [show (0.60 : ℚ) = 60 / 100 by norm_num]
    exact (div_le_iff₀ h100).symm
  have e40 : (40 : ℚ) ≤ frac * 100 ↔ (0.40 : ℚ) ≤ frac := by
    rw [show (0.40 : ℚ) = 40 / 100 by norm_num]
    exact (div_le_iff₀ h100).symm
  have e20 : (20 : ℚ) ≤ frac * 100 ↔ (0.20 : ℚ) ≤ frac := by
    rw [show (0.20 : ℚ) = 20 / 100 by norm_num]
    exact (div_le_iff₀ h100).symm
  simp only [e80, e60, e40, e20]
  split_ifs <;> rfl

/-- C3 witness: five USDT pairs with exactly one advancing — an advancing
fraction of exactly 0.20, classified (inclusively) as bearish with
percentage 20. -/
theorem get_market_sentiment_bucketing_witness :
    get_market_sentiment (.ok
      [⟨"AUSDT".data, 1⟩, ⟨"BUSDT".data, -1⟩, ⟨"CUSDT".data, -2⟩,
       ⟨"DUSDT".data, 0⟩, ⟨"EUSDT".data, -3⟩])
      = .report Sentiment.bearish 20 := by
  have h := get_market_sentiment_bucketing
    [⟨"AUSDT".data, 1⟩, ⟨"BUSDT".data, -1⟩, ⟨"CUSDT".data, -2⟩,
     ⟨"DUSDT".data, 0⟩, ⟨"EUSDT".data, -3⟩] (by decide)
  have hu : List.filter (fun item => List.isSuffixOf "USDT".data item.symbol)
      [(⟨"AUSDT".data, 1⟩ : Ticker), ⟨"BUSDT".data, -1⟩, ⟨"CUSDT".data, -2⟩,
       ⟨"DUSDT".data, 0⟩, ⟨"EUSDT".data, -3⟩]
      = [⟨"AUSDT".data, 1⟩, ⟨"BUSDT".data, -1⟩, ⟨"CUSDT".data, -2⟩,
         ⟨"DUSDT".data, 0⟩, ⟨"EUSDT".data, -3⟩] := by decide
  have hup : List.filter (fun item => 0 < item.priceChangePercent)
      [(⟨"AUSDT".data, 1⟩ : Ticker), ⟨"BUSDT".data, -1⟩, ⟨"CUSDT".data, -2⟩,
       ⟨"DUSDT".data, 0⟩, ⟨"EUSDT".data, -3⟩]
      = [⟨"AUSDT".data, 1⟩] := by decide
  rw [h, hu]
  unfold advancingFraction
  rw [hup]
  norm_num [specBucket]

/-- C4 (confirmed): when the filtered USDT collection is empty, the explicit
`total_pairs == 0` check fires before any division and the `NoData` message
is returned. -/
theorem get_market_sentiment_no_data (data : List Ticker)
    (h : data.filter (fun item => List.isSuffixOf "USDT".data item.symbol) = []) :
    get_market_sentiment (.ok data) = .noData := by
  unfold get_market_sentiment
  dsimp only
  rw [h]
  rfl

/-- C4 witness: a collection with no USDT-quoted snapshot yields `NoData`. -/
theorem get_market_sentiment_no_data_witness :
    get_market_sentiment (.ok [(⟨"XBTC".data, 5⟩ : Ticker)]) = .noData :=
  get_market_sentiment_no_data [⟨"XBTC".data, 5⟩] (by decide)

/-! ### C9 -/

/-- C9 (confirmed): an exception raised by the external collaborator inside
any of the six boundary operations is caught by the surrounding
`try`/`except` and converted to a sentinel or error-message return value —
`False`, `None`, or the corresponding failure string — never propagated. -/
theorem boundary_error_handling (e : String) (symbolC : List Char)
    (symbol interval analysis_summary style analysis_data trading_plan : String)
    (limit : ℕ) :
    check_symbol_exists symbolC (.exn e) = false ∧
    @get_klines_data ℚ symbol interval limit (.exn e) = none ∧
    get_market_sentiment (.exn e) = .fetchErr ("获取市场情绪时发生错误: " ++ e) ∧
    generate_trading_plan symbol (fun _ => .exn e) = "交易计划生成失败: " ++ e ∧
    generate_tweet symbol analysis_summary style (fun _ => .exn e)
      = ("推文生成失败: " ++ e).data ∧
    get_ai_analysis symbol analysis_data trading_plan (fun _ => .exn e)
      = "AI 分析生成失败: " ++ e :=
  ⟨rfl, rfl, rfl, rfl, rfl, rfl⟩

/-! ### C10 -/

/-- C10 (confirmed): on a successful generation, the returned tweet is at
most 280 characters; when the (whitespace-stripped) generated text exceeds
280 characters, it is cut to its first 277 characters plus `"..."`. -/
theorem generate_tweet_length (symbol analysis_summary style : String)
    (gen : String → PyResult (List Char)) (content : List Char)
    (h : gen (tweetPrompt symbol analysis_summary style) = .ok content) :
    (generate_tweet symbol analysis_summary style gen).length ≤ 280 ∧
    (280 < (pyStrip content).length →
      generate_tweet symbol analysis_summary style gen
        = (pyStrip content).take 277 ++ "...".data) := by
  unfold generate_tweet
  rw [h]
  dsimp only
  constructor
  · split_ifs with hl
    · rw [List.length_append, List.length_take]
      have h3 : "...".data.length = 3 := rfl
      rw [h3]
      omega
    · omega
  · intro hl
    rw [if_pos hl]

/-- C10 witness: a 300-character generated text is truncated to 277
characters plus the ellipsis, within the 280 limit. -/
theorem generate_tweet_length_witness :
    (generate_tweet "BTC" "summary" "媒体"
      (fun _ => PyResult.ok (List.replicate 300 'a'))).length ≤ 280 ∧
    (280 < (pyStrip (List.replicate 300 'a')).length →
      generate_tweet "BTC" "summary" "媒体" (fun _ => PyResult.ok (List.replicate 300 'a'))
        = (pyStrip (List.replicate 300 'a')).take 277 ++ "...".data) :=
  generate_tweet_length "BTC" "summary" "媒体" (fun _ => PyResult.ok (List.replicate 300 'a'))
    (List.replicate 300 'a') rfl
